import Mathlib

/-!
Shallow embedding of the response-parsing / fallback logic of the LyricLens
(InstaMuse) Flask application, `app.py`.  The embedded functions are
`get_mock_response`, `parse_gemini_response`, `call_gemini` and the count
handling plus final truncation of the `/generate` route.  Python strings are
modelled as Lean `String` (sequences of code points, matching Python `len`,
`ord` and indexing); Python dynamic JSON values as the inductive `J`; the
external Gemini call as an explicit outcome parameter.
-/

namespace LyricLens

/-- Dynamic (JSON-like) Python values, as produced by `json.loads` and handed
around by `call_gemini`: `obj` is a dict as an association list (Python dicts
have unique keys). -/
inductive J where
  | null : J
  | bool : Bool → J
  | num : Int → J
  | str : String → J
  | arr : List J → J
  | obj : List (String × J) → J

/-- Result dictionary returned by every path of `call_gemini`:
`{'captions': ..., 'songs': ...}`. -/
structure GenResult where
  captions : J
  songs : J

/-- Python whitespace test used by `str.strip()` (ASCII fragment). -/
def isPySpace (c : Char) : Bool :=
  c = ' ' || c = '\t' || c = '\n' || c = '\x0d'

/-- Characters of `str.strip()`: drop whitespace from both ends. -/
def trimChars (l : List Char) : List Char :=
  ((l.dropWhile isPySpace).reverse.dropWhile isPySpace).reverse

/-- Python `str.strip()`. -/
def pyStrip (s : String) : String :=
  String.mk (trimChars s.data)

/-- Does `pat` occur at the very front of `l`? (helper for substring search). -/
def leadsWith : List Char → List Char → Bool
  | [], _ => true
  | _ :: _, [] => false
  | p :: ps, c :: cs => p = c && leadsWith ps cs

/-- Python `pat in s` on character lists: `pat` occurs as a contiguous
substring. -/
def containsSub (pat : List Char) : List Char → Bool
  | [] => leadsWith pat []
  | c :: rest => leadsWith pat (c :: rest) || containsSub pat rest

/-- Python `pat in s` for strings. -/
def pyContains (pat s : String) : Bool :=
  containsSub pat.data s.data

/-- Worker for Python `str.split(sep)` with a nonempty separator: leftmost,
non-overlapping cuts.  `fuel` bounds the recursion; every step consumes at
least one character, so `fuel = length of the input` suffices. -/
def splitGo (pat : List Char) : Nat → List Char → List Char → List (List Char)
  | _, acc, [] => [acc.reverse]
  | 0, acc, l => [acc.reverse ++ l]
  | fuel + 1, acc, c :: rest =>
    if leadsWith pat (c :: rest) && !pat.isEmpty then
      acc.reverse :: splitGo pat fuel [] ((c :: rest).drop pat.length)
    else
      splitGo pat fuel (c :: acc) rest

/-- Python `s.split(sep)` for a nonempty separator `sep`. -/
def pySplit (sep s : String) : List String :=
  (splitGo sep.data s.data.length [] s.data).map String.mk

/-- Python `ch.lower()` for one character (ASCII; the keywords scanned for by
the app are all ASCII). -/
def lowerChar (c : Char) : Char :=
  if 'A' ≤ c && c ≤ 'Z' then Char.ofNat (c.toNat + 32) else c

/-- Python `s.lower()` (ASCII fragment). -/
def pyLower (s : String) : String :=
  String.mk (s.data.map lowerChar)

/-- Build the dict `{"title": t, "artist": a}` as the app does for every song
record it constructs. -/
def mkSong (t a : String) : J :=
  J.obj [("title", J.str t), ("artist", J.str a)]

/-- Python dict lookup `d[k]` / membership `k in d` on the association list of
an `J.obj`. -/
def lookupJ (kvs : List (String × J)) (k : String) : Option J :=
  match kvs with
  | [] => none
  | (k', v) :: rest => if k' = k then some v else lookupJ rest k

/-- Elements produced by iterating a Python value: a list yields its items, a
string yields its characters as one-character strings.  (In `call_gemini` this
is only applied after a successful slice, which already excludes every other
shape.) -/
def jElems : J → List J
  | J.arr xs => xs
  | J.str s => s.data.map (fun c => J.str (String.mk [c]))
  | _ => []

/-- Python slicing `x[:n]`: defined for lists and strings, a `TypeError`
(modelled as `none`) for everything else. -/
def pySlice : J → Nat → Option J
  | J.arr xs, n => some (J.arr (xs.take n))
  | J.str s, n => some (J.str (String.mk (s.data.take n)))
  | _, _ => none

/-- Number of elements of a returned sequence value (list length or string
length). -/
def jLen : J → Nat
  | J.arr xs => xs.length
  | J.str s => s.length
  | _ => 0

/-- Does a value have the shape `{title: ..., artist: ...}` (possibly with
further keys), i.e. is it a dict containing both keys? -/
def hasTitleArtist : J → Bool
  | J.obj kvs => (lookupJ kvs "title").isSome && (lookupJ kvs "artist").isSome
  | _ => false

/-! ### `get_mock_response` (app.py lines 225-300) -/

/-- `base_captions` pool (7 entries). -/
def base_captions : List String :=
  [ "Stolen moments under golden skies",
    "When the world felt like a soft melody",
    "Sunlit streets and quiet thoughts",
    "Lost in the little things",
    "Weekend chapters written in sunlight",
    "Chasing light and finding magic",
    "Simple moments, infinite beauty" ]

/-- `bollywood_songs` pool (7 entries). -/
def bollywood_songs : List J :=
  [ mkSong "Tum Hi Ho" "Arijit Singh",
    mkSong "Raabta" "Arijit Singh",
    mkSong "Channa Mereya" "Arijit Singh",
    mkSong "Tera Ban Jaunga" "Tulsi Kumar & Akhil Sachdeva",
    mkSong "Kesariya" "Arijit Singh",
    mkSong "Phir Bhi Tumko Chaahunga" "Arijit Singh",
    mkSong "Dil Diyan Gallan" "Atif Aslam" ]

/-- `hollywood_songs` pool (7 entries). -/
def hollywood_songs : List J :=
  [ mkSong "Golden Hour" "Joji",
    mkSong "Sunflower" "Post Malone",
    mkSong "Levitating" "Dua Lipa",
    mkSong "Blinding Lights" "The Weeknd",
    mkSong "Watermelon Sugar" "Harry Styles",
    mkSong "Good 4 U" "Olivia Rodrigo",
    mkSong "Stay" "The Kid LAROI & Justin Bieber" ]

/-- `tollywood_songs` pool (7 entries). -/
def tollywood_songs : List J :=
  [ mkSong "Ala Vaikunthapurramuloo" "Armaan Malik",
    mkSong "Inkem Inkem" "Sid Sriram",
    mkSong "Samajavaragamana" "Sid Sriram",
    mkSong "Vachinde" "Madhu Priya",
    mkSong "Rangamma Mangamma" "MM Manasi",
    mkSong "Buttabomma" "Armaan Malik",
    mkSong "Ramuloo Ramulaa" "Anurag Kulkarni" ]

/-- `kpop_songs` pool (7 entries). -/
def kpop_songs : List J :=
  [ mkSong "Dynamite" "BTS",
    mkSong "Butter" "BTS",
    mkSong "How You Like That" "BLACKPINK",
    mkSong "Gangnam Style" "PSY",
    mkSong "Next Level" "aespa",
    mkSong "Savage" "aespa",
    mkSong "LALISA" "LISA" ]

/-- Region keyword scan of `get_mock_response` (app.py lines 278-287):
default `hollywood_songs`, overridden by the first matching keyword of the
`if`/`elif` chain over `prompt.lower()`. -/
def select_base_songs (prompt : String) : List J :=
  if pyContains "bollywood" (pyLower prompt) then bollywood_songs
  else if pyContains "tollywood" (pyLower prompt) then tollywood_songs
  else if pyContains "kpop" (pyLower prompt) || pyContains "k-pop" (pyLower prompt) then
    kpop_songs
  else if pyContains "hollywood" (pyLower prompt) then hollywood_songs
  else hollywood_songs

/-- `seed = sum(ord(c) for c in prompt) % len(base_captions) if prompt else 0`
(app.py line 290). -/
def mock_seed (prompt : String) : Nat :=
  if prompt ≠ "" then (prompt.data.map Char.toNat).sum % base_captions.length
  else 0

/-- `get_mock_response(prompt, max_outputs)` (app.py lines 225-300): the
`for i in range(max_outputs)` loop appending
`base_captions[(seed + i) % len(base_captions)]` and
`base_songs[(seed + i) % len(base_songs)]`. -/
def get_mock_response (prompt : String) (max_outputs : Nat) : GenResult :=
  let base_songs := select_base_songs prompt
  let seed := mock_seed prompt
  { captions := J.arr ((List.range max_outputs).map
      (fun i => J.str (base_captions.getD ((seed + i) % base_captions.length) ""))),
    songs := J.arr ((List.range max_outputs).map
      (fun i => base_songs.getD ((seed + i) % base_songs.length) J.null)) }

/-! ### `parse_gemini_response` (app.py lines 173-222) -/

/-- The three-character mojibake bullet literal removed by the cleanup
(`'â€¢'` in the source: U+00E2, U+20AC, U+00A2). -/
def bulletPat : List Char := ['â', '€', '¢']

/-- Remove every (leftmost, non-overlapping) occurrence of the
three-character bullet literal, as Python `str.replace('â€¢', '')` does. -/
def removeBullet : List Char → List Char
  | [] => []
  | [c] => [c]
  | [c1, c2] => [c1, c2]
  | c1 :: c2 :: c3 :: rest =>
    if c1 = 'â' && c2 = '€' && c3 = '¢' then removeBullet rest
    else c1 :: removeBullet (c2 :: c3 :: rest)

/-- The cleanup `line.replace('*', '').replace('-', '').replace('â€¢', '').strip()`
applied to every data line (app.py lines 195 and 201).  Replacing a
single-character pattern by the empty string removes every occurrence of that
character. -/
def cleanLine (line : String) : String :=
  String.mk (trimChars (removeBullet
    ((line.data.filter (fun c => c ≠ '*')).filter (fun c => c ≠ '-'))))

/-- Song extracted from a cleaned line in songs mode (app.py lines 199-209):
split on `" by "`, else on `" - "`, else keep the whole line as title when its
length exceeds 3; `none` when the line is dropped. -/
def songFromCleaned (song_line : String) : Option J :=
  if pyContains " by " song_line then
    let parts := pySplit " by " song_line
    some (mkSong (pyStrip (parts.getD 0 "")) (pyStrip (parts.getD 1 "")))
  else if pyContains " - " song_line then
    let parts := pySplit " - " song_line
    some (mkSong (pyStrip (parts.getD 0 "")) (pyStrip (parts.getD 1 "")))
  else if song_line ≠ "" && song_line.length > 3 then
    some (mkSong song_line "Unknown Artist")
  else none

/-- `current_section` of the line loop. -/
inductive PMode where
  | start
  | caps
  | songs

/-- Loop state of `parse_gemini_response`: collected captions, collected
songs, current section. -/
structure PState where
  captions : List String
  songs : List J
  mode : PMode

/-- One iteration of the `for line in lines` loop of `parse_gemini_response`
(app.py lines 181-209). -/
def processLine (max_outputs : Nat) (st : PState) (rawLine : String) : PState :=
  if pyStrip rawLine = "" then st
  else if pyContains "caption" (pyLower (pyStrip rawLine)) && st.captions.length = 0 then
    { st with mode := PMode.caps }
  else if pyContains "song" (pyLower (pyStrip rawLine)) && st.songs.length = 0 then
    { st with mode := PMode.songs }
  else
    match st.mode with
    | PMode.caps =>
      if st.captions.length < max_outputs then
        if cleanLine (pyStrip rawLine) ≠ "" && (cleanLine (pyStrip rawLine)).length > 5 then
          { st with captions := st.captions ++ [cleanLine (pyStrip rawLine)] }
        else st
      else st
    | PMode.songs =>
      if st.songs.length < max_outputs then
        match songFromCleaned (cleanLine (pyStrip rawLine)) with
        | some s => { st with songs := st.songs ++ [s] }
        | none => st
      else st
    | PMode.start => st

/-- The `while len(xs) < max_outputs` padding loops (app.py lines 214-217):
repeatedly append `pool[len(xs) % len(pool)]`.  `fuel` bounds the loop; each
pass grows the list by one, so `fuel = target` suffices. -/
def padCycle (pool : List J) (target : Nat) : Nat → List J → List J
  | 0, xs => xs
  | fuel + 1, xs =>
    if xs.length < target then
      padCycle pool target fuel (xs ++ [pool.getD (xs.length % pool.length) J.null])
    else xs

/-- `parse_gemini_response(response_text, max_outputs)` (app.py lines
173-222): split into lines, run the section/collection loop, pad any short
list by cycling through `get_mock_response("", max_outputs)`, and truncate
both lists to `max_outputs`. -/
def parse_gemini_response (response_text : String) (max_outputs : Nat) : GenResult :=
  let lines := pySplit "\n" response_text
  let st := lines.foldl (processLine max_outputs) ⟨[], [], PMode.start⟩
  let mock_data := get_mock_response "" max_outputs
  let captions := padCycle (jElems mock_data.captions) max_outputs max_outputs
    (st.captions.map J.str)
  let songs := padCycle (jElems mock_data.songs) max_outputs max_outputs st.songs
  { captions := J.arr (captions.take max_outputs),
    songs := J.arr (songs.take max_outputs) }

/-! ### `call_gemini` (app.py lines 54-170) -/

/-- Outcome of the external Gemini call as observed inside the `try` block of
`call_gemini`:
* `raised` — the model call (or anything before the JSON extraction) raised;
* `returned text parsed` — the call returned `text` (`response.text.strip()`),
  and `parsed` is the result of extracting the substring from the first `'{'`
  to the last `'}'` and running `json.loads` on it: `none` when no braces were
  found or decoding raised `JSONDecodeError`, otherwise the parsed object's
  key-value pairs (a string that starts with `'{'` and ends with `'}'` can
  only decode to a dict). -/
inductive CallOutcome where
  | raised
  | returned (text : String) (parsed : Option (List (String × J)))

/-- The `for song in songs` normalisation loop of the JSON path (app.py lines
145-155): keep dicts having both `title` and `artist`, split plain strings on
`" - "` (`parts[1]` when at least two parts, else the stripped whole string
with artist "Unknown Artist"), drop everything else. -/
def formatSongs : List J → List J
  | [] => []
  | J.obj kvs :: rest =>
    if (lookupJ kvs "title").isSome && (lookupJ kvs "artist").isSome then
      J.obj kvs :: formatSongs rest
    else formatSongs rest
  | J.str song :: rest =>
    (if (pySplit " - " song).length ≥ 2 then
      mkSong (pyStrip ((pySplit " - " song).getD 0 "")) (pyStrip ((pySplit " - " song).getD 1 ""))
    else
      mkSong (pyStrip song) "Unknown Artist") :: formatSongs rest
  | _ :: rest => formatSongs rest

/-- How one attempt at the JSON-success path ends. -/
inductive TryResult where
  | ok (r : GenResult)
  | fallthrough
  | raised

/-- The body of the JSON-success path (app.py lines 139-160), given the
decoded object: when both keys are present, slice each value to
`max_outputs` (a `TypeError` on a non-sliceable value escapes to the outer
handler: `raised`) and normalise the songs; when a key is missing, control
falls through to `parse_gemini_response`. -/
def jsonPath (kvs : List (String × J)) (max_outputs : Nat) : TryResult :=
  match lookupJ kvs "captions", lookupJ kvs "songs" with
  | some capsJ, some songsJ =>
    match pySlice capsJ max_outputs, pySlice songsJ max_outputs with
    | some captions, some songsSliced =>
      TryResult.ok { captions := captions,
                     songs := J.arr (formatSongs (jElems songsSliced)) }
    | _, _ => TryResult.raised
  | _, _ => TryResult.fallthrough

/-- `call_gemini(prompt, image_bytes, max_outputs)` (app.py lines 54-170).
`has_key` models whether `GEMINI_API_KEY` is configured; `outcome` models the
external call.  No key → mock; any exception (during the call or from a
`TypeError` inside the JSON path) → mock; decode failure or missing keys →
`parse_gemini_response` on the raw text; otherwise the JSON-success result. -/
def call_gemini (has_key : Bool) (prompt : String) (outcome : CallOutcome)
    (max_outputs : Nat) : GenResult :=
  if has_key = false then get_mock_response prompt max_outputs
  else
    match outcome with
    | CallOutcome.raised => get_mock_response prompt max_outputs
    | CallOutcome.returned text parsed =>
      match parsed with
      | none => parse_gemini_response text max_outputs
      | some kvs =>
        match jsonPath kvs max_outputs with
        | TryResult.ok r => r
        | TryResult.fallthrough => parse_gemini_response text max_outputs
        | TryResult.raised => get_mock_response prompt max_outputs

/-! ### the `/generate` route (app.py lines 888-944) -/

/-- Worker for Python `int()` on a trimmed string: all characters must be
decimal digits (at least one). -/
def digitsToNat : List Char → Option Nat
  | [] => none
  | ds =>
    if ds.all Char.isDigit then
      some (ds.foldl (fun acc c => acc * 10 + (c.toNat - 48)) 0)
    else none

/-- Python `int(s)` on a decimal string literal: surrounding whitespace, an
optional sign and decimal digits; everything else raises `ValueError`
(modelled as `none`). -/
def pyParseInt (s : String) : Option Int :=
  match (trimChars s.data) with
  | '+' :: ds => (digitsToNat ds).map Int.ofNat
  | '-' :: ds => (digitsToNat ds).map (fun n => -(Int.ofNat n))
  | ds => (digitsToNat ds).map Int.ofNat

/-- The `num` handling of the route (app.py lines 907-911):
`num = int(request.form.get('num', '3')); num = max(1, min(6, num))` with a
bare `except` resetting `num = 3` on parse failure. -/
def clampNum (field : Option String) : Int :=
  match pyParseInt (field.getD "3") with
  | some n => max 1 (min 6 n)
  | none => 3

/-- The tail of the `/generate` route (app.py lines 933-944): call the
adapter with the clamped count and re-truncate both sequences
(`response.get(...)[:num]`).  The slice of a non-sequence value would raise
(`none`, surfaced as HTTP 500); the adapter never produces one. -/
def generate (has_key : Bool) (prompt : String) (outcome : CallOutcome)
    (numField : Option String) : Option (J × J) :=
  match pySlice (call_gemini has_key prompt outcome (clampNum numField).toNat).captions
          (clampNum numField).toNat,
        pySlice (call_gemini has_key prompt outcome (clampNum numField).toNat).songs
          (clampNum numField).toNat with
  | some captions, some songs => some (captions, songs)
  | _, _ => none

/-! ### Analysis helpers (used only in theorem statements and proofs) -/

/-- Values that Python can slice with `[:n]`: lists and strings. -/
def isSeq : J → Bool
  | J.arr _ => true
  | J.str _ => true
  | _ => false

/-- Extract the `title` and `artist` string fields of a song record. -/
def songTitleArtist : J → Option (String × String)
  | J.obj kvs =>
    match lookupJ kvs "title", lookupJ kvs "artist" with
    | some (J.str t), some (J.str a) => some (t, a)
    | _, _ => none
  | _ => none

/-- Did `call_gemini` return through the JSON-success path (the only path
that does not pad)? -/
def tookJsonPath (has_key : Bool) (outcome : CallOutcome) (n : Nat) : Bool :=
  has_key &&
    match outcome with
    | CallOutcome.returned _ (some kvs) =>
      match jsonPath kvs n with
      | TryResult.ok _ => true
      | _ => false
    | _ => false

/-- Per-entry song normalisation of the JSON-success path, as the amended
claim C8 reads: a dict is kept iff it has both `title` and `artist`; a plain
string is split on `" - "` with the title taken from the first field and the
artist from the second field of the full split (the segment between the first
and the second separator), both stripped, the artist defaulting to
"Unknown Artist" when no separator occurs; any other value is dropped. -/
def songEntryAmended : J → Option J
  | J.obj kvs =>
    if (lookupJ kvs "title").isSome && (lookupJ kvs "artist").isSome then
      some (J.obj kvs)
    else none
  | J.str song =>
    some (if (pySplit " - " song).length ≥ 2 then
      mkSong (pyStrip ((pySplit " - " song).getD 0 ""))
             (pyStrip ((pySplit " - " song).getD 1 ""))
    else mkSong (pyStrip song) "Unknown Artist")
  | _ => none

/-- Line-recovery input used as the concrete counterexample for C2. -/
def c2Text : String := "Song suggestions:\nHello - Adele"

/-! ### Helper lemmas -/

theorem mem_trimChars {x : Char} {l : List Char} (h : x ∈ trimChars l) : x ∈ l := by
  unfold trimChars at h
  have h1 := List.mem_reverse.mp h
  have h2 := (List.dropWhile_sublist isPySpace).mem h1
  have h3 := List.mem_reverse.mp h2
  exact (List.dropWhile_sublist isPySpace).mem h3

theorem mem_removeBullet : ∀ (l : List Char) (x : Char), x ∈ removeBullet l → x ∈ l
  | [], _, h => by simp [removeBullet] at h
  | [c], _, h => by simpa [removeBullet] using h
  | [c1, c2], _, h => by simpa [removeBullet] using h
  | c1 :: c2 :: c3 :: rest, x, h => by
    rw [removeBullet] at h
    by_cases hc : c1 = 'â' && c2 = '€' && c3 = '¢'
    · rw [if_pos hc] at h
      have := mem_removeBullet rest x h
      simp [this]
    · rw [if_neg hc] at h
      rcases List.mem_cons.mp h with h1 | h1
      · simp [h1]
      · have := mem_removeBullet (c2 :: c3 :: rest) x h1
        simp only [List.mem_cons] at this ⊢
        tauto

theorem cleanLine_no_dash (l : String) : '-' ∉ (cleanLine l).data := by
  intro h
  unfold cleanLine at h
  simp only [String.data] at h
  have h1 := mem_trimChars h
  have h2 := mem_removeBullet _ _ h1
  have h3 := (List.mem_filter.mp h2).2
  simp at h3

theorem leadsWith_mem : ∀ (pat l : List Char), leadsWith pat l = true →
    ∀ x ∈ pat, x ∈ l
  | [], _, _, x, hx => by simp at hx
  | _ :: _, [], h, _, _ => by simp [leadsWith] at h
  | p :: ps, c :: cs, h, x, hx => by
    rw [leadsWith, Bool.and_eq_true] at h
    have hpc : p = c := by simpa using h.1
    rcases List.mem_cons.mp hx with h1 | h1
    · subst h1
      simp [hpc]
    · have := leadsWith_mem ps cs h.2 x h1
      simp [this]

theorem containsSub_mem : ∀ (pat l : List Char), containsSub pat l = true →
    ∀ x ∈ pat, x ∈ l
  | pat, [], h, x, hx => by
    rw [containsSub] at h
    exact leadsWith_mem pat [] h x hx
  | pat, c :: rest, h, x, hx => by
    rw [containsSub, Bool.or_eq_true] at h
    rcases h with h | h
    · exact leadsWith_mem pat (c :: rest) h x hx
    · have := containsSub_mem pat rest h x hx
      simp [this]

theorem cleanLine_no_dash_sep (l : String) :
    pyContains " - " (cleanLine l) = false := by
  by_contra hc
  rw [Bool.not_eq_false] at hc
  have := containsSub_mem _ _ hc '-' (by decide)
  exact cleanLine_no_dash l this

theorem length_base_captions : base_captions.length = 7 := rfl

theorem length_select_base_songs (prompt : String) :
    (select_base_songs prompt).length = 7 := by
  unfold select_base_songs
  split
  · rfl
  · split
    · rfl
    · split
      · rfl
      · split <;> rfl

theorem mem_bollywood_hasTitleArtist {s : J} (h : s ∈ bollywood_songs) :
    hasTitleArtist s = true := by
  simp only [bollywood_songs, List.mem_cons, List.not_mem_nil, or_false] at h
  rcases h with rfl | rfl | rfl | rfl | rfl | rfl | rfl <;> rfl

theorem mem_hollywood_hasTitleArtist {s : J} (h : s ∈ hollywood_songs) :
    hasTitleArtist s = true := by
  simp only [hollywood_songs, List.mem_cons, List.not_mem_nil, or_false] at h
  rcases h with rfl | rfl | rfl | rfl | rfl | rfl | rfl <;> rfl

theorem mem_tollywood_hasTitleArtist {s : J} (h : s ∈ tollywood_songs) :
    hasTitleArtist s = true := by
  simp only [tollywood_songs, List.mem_cons, List.not_mem_nil, or_false] at h
  rcases h with rfl | rfl | rfl | rfl | rfl | rfl | rfl <;> rfl

theorem mem_kpop_hasTitleArtist {s : J} (h : s ∈ kpop_songs) :
    hasTitleArtist s = true := by
  simp only [kpop_songs, List.mem_cons, List.not_mem_nil, or_false] at h
  rcases h with rfl | rfl | rfl | rfl | rfl | rfl | rfl <;> rfl

theorem mem_select_hasTitleArtist {prompt : String} {s : J}
    (h : s ∈ select_base_songs prompt) : hasTitleArtist s = true := by
  unfold select_base_songs at h
  split at h
  · exact mem_bollywood_hasTitleArtist h
  · split at h
    · exact mem_tollywood_hasTitleArtist h
    · split at h
      · exact mem_kpop_hasTitleArtist h
      · split at h
        · exact mem_hollywood_hasTitleArtist h
        · exact mem_hollywood_hasTitleArtist h

theorem getD_mem_of_lt {l : List J} {i : Nat} (h : i < l.length) (d : J) :
    l.getD i d ∈ l := by
  rw [List.getD_eq_getElem l d h]
  exact List.getElem_mem h

theorem getElem?_eq_getD_of_lt {l : List J} {i : Nat} (h : i < l.length) (d : J) :
    l[i]? = some (l.getD i d) := by
  rw [List.getD_eq_getElem l d h, List.getElem?_eq_getElem h]

theorem mock_captions_elems (prompt : String) (n : Nat) :
    jElems (get_mock_response prompt n).captions =
      (List.range n).map
        (fun i => J.str (base_captions.getD ((mock_seed prompt + i) % base_captions.length) "")) := rfl

theorem mock_songs_elems (prompt : String) (n : Nat) :
    jElems (get_mock_response prompt n).songs =
      (List.range n).map
        (fun i => (select_base_songs prompt).getD
          ((mock_seed prompt + i) % (select_base_songs prompt).length) J.null) := rfl

theorem mock_captions_len (prompt : String) (n : Nat) :
    jLen (get_mock_response prompt n).captions = n := by
  show ((List.range n).map _).length = n
  simp

theorem mock_songs_len (prompt : String) (n : Nat) :
    jLen (get_mock_response prompt n).songs = n := by
  show ((List.range n).map _).length = n
  simp

theorem mem_mock_songs {prompt : String} {n : Nat} {s : J}
    (h : s ∈ jElems (get_mock_response prompt n).songs) :
    s ∈ select_base_songs prompt := by
  rw [mock_songs_elems] at h
  rcases List.mem_map.mp h with ⟨i, _, rfl⟩
  apply getD_mem_of_lt
  apply Nat.mod_lt
  rw [length_select_base_songs]
  omega

theorem mock_songs_hasTitleArtist {prompt : String} {n : Nat} {s : J}
    (h : s ∈ jElems (get_mock_response prompt n).songs) :
    hasTitleArtist s = true :=
  mem_select_hasTitleArtist (mem_mock_songs h)

theorem padCycle_length (pool : List J) (target : Nat) :
    ∀ (fuel : Nat) (xs : List J), target ≤ xs.length + fuel →
      (padCycle pool target fuel xs).length = max xs.length target
  | 0, xs, h => by
    rw [padCycle]
    omega
  | fuel + 1, xs, h => by
    rw [padCycle]
    split
    · rw [padCycle_length pool target fuel _ (by simp; omega)]
      simp
      omega
    · omega

theorem mem_padCycle (pool : List J) (target : Nat) (hpool : pool.length = target) :
    ∀ (fuel : Nat) (xs : List J) (x : J), x ∈ padCycle pool target fuel xs →
      x ∈ xs ∨ x ∈ pool
  | 0, xs, x, h => by
    rw [padCycle] at h
    exact Or.inl h
  | fuel + 1, xs, x, h => by
    rw [padCycle] at h
    split at h
    next hlt =>
      rcases mem_padCycle pool target hpool fuel _ x h with h1 | h1
      · rcases List.mem_append.mp h1 with h2 | h2
        · exact Or.inl h2
        · right
          have hx : x = pool.getD (xs.length % pool.length) J.null := by simpa using h2
          rw [hx]
          apply getD_mem_of_lt
          apply Nat.mod_lt
          omega
      · exact Or.inr h1
    next => exact Or.inl h

theorem parse_captions_len (text : String) (n : Nat) :
    jLen (parse_gemini_response text n).captions = n := by
  unfold parse_gemini_response
  show (List.take n _).length = n
  rw [List.length_take, padCycle_length _ n n _ (by omega)]
  omega

theorem parse_songs_len (text : String) (n : Nat) :
    jLen (parse_gemini_response text n).songs = n := by
  unfold parse_gemini_response
  show (List.take n _).length = n
  rw [List.length_take, padCycle_length _ n n _ (by omega)]
  omega

theorem songEntryAmended_obj (kvs : List (String × J)) :
    songEntryAmended (J.obj kvs) =
      if ((lookupJ kvs "title").isSome && (lookupJ kvs "artist").isSome) = true then
        some (J.obj kvs)
      else none := rfl

theorem formatSongs_obj_cons (kvs : List (String × J)) (rest : List J) :
    formatSongs (J.obj kvs :: rest) =
      if ((lookupJ kvs "title").isSome && (lookupJ kvs "artist").isSome) = true then
        J.obj kvs :: formatSongs rest
      else formatSongs rest := rfl

theorem formatSongs_eq_filterMap : ∀ l : List J,
    formatSongs l = l.filterMap songEntryAmended
  | [] => rfl
  | J.obj kvs :: rest => by
    rw [formatSongs_obj_cons]
    by_cases h : ((lookupJ kvs "title").isSome && (lookupJ kvs "artist").isSome) = true
    · rw [if_pos h,
        List.filterMap_cons_some (by rw [songEntryAmended_obj, if_pos h]),
        formatSongs_eq_filterMap rest]
    · rw [if_neg h,
        List.filterMap_cons_none (by rw [songEntryAmended_obj, if_neg h]),
        formatSongs_eq_filterMap rest]
  | J.str song :: rest => by
    have e : songEntryAmended (J.str song) = some (if (pySplit " - " song).length ≥ 2 then
        mkSong (pyStrip ((pySplit " - " song).getD 0 "")) (pyStrip ((pySplit " - " song).getD 1 ""))
      else mkSong (pyStrip song) "Unknown Artist") := rfl
    rw [List.filterMap_cons_some e]
    show (if (pySplit " - " song).length ≥ 2 then
        mkSong (pyStrip ((pySplit " - " song).getD 0 "")) (pyStrip ((pySplit " - " song).getD 1 ""))
      else mkSong (pyStrip song) "Unknown Artist") :: formatSongs rest = _
    rw [formatSongs_eq_filterMap rest]
  | J.null :: rest => by
    rw [List.filterMap_cons_none rfl]
    exact formatSongs_eq_filterMap rest
  | J.bool b :: rest => by
    rw [List.filterMap_cons_none rfl]
    exact formatSongs_eq_filterMap rest
  | J.num m :: rest => by
    rw [List.filterMap_cons_none rfl]
    exact formatSongs_eq_filterMap rest
  | J.arr xs :: rest => by
    rw [List.filterMap_cons_none rfl]
    exact formatSongs_eq_filterMap rest

theorem formatSongs_length_le : ∀ l : List J, (formatSongs l).length ≤ l.length := by
  intro l
  rw [formatSongs_eq_filterMap]
  exact List.length_filterMap_le _ _

theorem mem_formatSongs_hasTitleArtist {l : List J} {s : J}
    (h : s ∈ formatSongs l) : hasTitleArtist s = true := by
  rw [formatSongs_eq_filterMap] at h
  rcases List.mem_filterMap.mp h with ⟨x, _, hx⟩
  cases x with
  | obj kvs =>
    rw [songEntryAmended_obj] at hx
    split at hx
    next hk =>
      injection hx with h'
      rw [← h']
      exact hk
    next => exact Option.noConfusion hx
  | str song =>
    injection hx with h'
    rw [← h']
    split <;> rfl
  | null => exact Option.noConfusion hx
  | bool b => exact Option.noConfusion hx
  | num m => exact Option.noConfusion hx
  | arr xs => exact Option.noConfusion hx

theorem pySlice_isSeq {j r : J} {n : Nat} (h : pySlice j n = some r) :
    isSeq r = true := by
  cases j with
  | arr xs =>
    injection h with h'
    rw [← h']
    rfl
  | str s =>
    injection h with h'
    rw [← h']
    rfl
  | null => exact Option.noConfusion h
  | bool b => exact Option.noConfusion h
  | num m => exact Option.noConfusion h
  | obj kvs => exact Option.noConfusion h

theorem jLen_pySlice {j r : J} {n : Nat} (h : pySlice j n = some r) :
    jLen r = min n (jLen j) := by
  cases j with
  | arr xs =>
    injection h with h'
    rw [← h']
    show (xs.take n).length = min n xs.length
    exact List.length_take n xs
  | str s =>
    injection h with h'
    rw [← h']
    show (s.data.take n).length = min n s.data.length
    exact List.length_take n s.data
  | null => exact Option.noConfusion h
  | bool b => exact Option.noConfusion h
  | num m => exact Option.noConfusion h
  | obj kvs => exact Option.noConfusion h

theorem pySlice_some_of_isSeq {j : J} (hj : isSeq j = true) (n : Nat) :
    ∃ r, pySlice j n = some r := by
  cases j with
  | arr xs => exact ⟨_, rfl⟩
  | str s => exact ⟨_, rfl⟩
  | null => exact Bool.noConfusion hj
  | bool b => exact Bool.noConfusion hj
  | num m => exact Bool.noConfusion hj
  | obj kvs => exact Bool.noConfusion hj

theorem jElems_length {j : J} (hj : isSeq j = true) :
    (jElems j).length = jLen j := by
  cases j with
  | arr xs => rfl
  | str s =>
    show (s.data.map _).length = s.data.length
    exact List.length_map s.data _
  | null => exact Bool.noConfusion hj
  | bool b => exact Bool.noConfusion hj
  | num m => exact Bool.noConfusion hj
  | obj kvs => exact Bool.noConfusion hj

theorem songFromCleaned_hasTitleArtist {sl : String} {j : J}
    (h : songFromCleaned sl = some j) : hasTitleArtist j = true := by
  unfold songFromCleaned at h
  split at h
  · injection h with h'
    rw [← h']
    rfl
  · split at h
    · injection h with h'
      rw [← h']
      rfl
    · split at h
      · injection h with h'
        rw [← h']
        rfl
      · exact Option.noConfusion h

theorem processLine_songs_invariant {n : Nat} {st : PState} {line : String}
    (hst : ∀ s ∈ st.songs, hasTitleArtist s = true) :
    ∀ s ∈ (processLine n st line).songs, hasTitleArtist s = true := by
  intro s hs
  unfold processLine at hs
  repeat' split at hs
  all_goals first
    | exact hst s hs
    | (rename_i j hj
       rcases List.mem_append.mp hs with h1 | h1
       · exact hst s h1
       · have hsj : s = j := by simpa using h1
         rw [hsj]
         exact songFromCleaned_hasTitleArtist hj)

theorem foldl_songs_invariant (n : Nat) :
    ∀ (lines : List String) (st : PState),
      (∀ s ∈ st.songs, hasTitleArtist s = true) →
      ∀ s ∈ (lines.foldl (processLine n) st).songs, hasTitleArtist s = true
  | [], _, hst => hst
  | line :: rest, st, hst =>
    foldl_songs_invariant n rest (processLine n st line)
      (processLine_songs_invariant hst)

theorem parse_songs_hasTitleArtist {text : String} {n : Nat} {s : J}
    (h : s ∈ jElems (parse_gemini_response text n).songs) :
    hasTitleArtist s = true := by
  unfold parse_gemini_response at h
  have h1 := List.mem_of_mem_take h
  have hpool : (jElems (get_mock_response "" n).songs).length = n := by
    rw [jElems_length (by rfl), mock_songs_len]
  rcases mem_padCycle _ n hpool n _ s h1 with h2 | h2
  · exact foldl_songs_invariant n _ _ (by intro s hs; exact absurd hs (List.not_mem_nil s)) s h2
  · exact mem_select_hasTitleArtist (mem_mock_songs h2)

theorem jsonPath_ok_inv {kvs : List (String × J)} {n : Nat} {r : GenResult}
    (h : jsonPath kvs n = TryResult.ok r) :
    ∃ capsJ songsJ captions songsSliced,
      lookupJ kvs "captions" = some capsJ ∧ lookupJ kvs "songs" = some songsJ ∧
      pySlice capsJ n = some captions ∧ pySlice songsJ n = some songsSliced ∧
      r = { captions := captions, songs := J.arr (formatSongs (jElems songsSliced)) } := by
  unfold jsonPath at h
  split at h
  next capsJ songsJ hc hs =>
    split at h
    next captions songsSliced hcap hsl =>
      injection h with h'
      exact ⟨capsJ, songsJ, captions, songsSliced, hc, hs, hcap, hsl, h'.symm⟩
    next => exact TryResult.noConfusion h
  next => exact TryResult.noConfusion h

theorem call_gemini_no_key (prompt : String) (outcome : CallOutcome) (n : Nat) :
    call_gemini false prompt outcome n = get_mock_response prompt n := rfl

theorem call_gemini_raised (prompt : String) (n : Nat) :
    call_gemini true prompt CallOutcome.raised n = get_mock_response prompt n := rfl

theorem call_gemini_decode_fail (prompt text : String) (n : Nat) :
    call_gemini true prompt (CallOutcome.returned text none) n =
      parse_gemini_response text n := rfl

theorem call_gemini_parsed (prompt text : String) (kvs : List (String × J)) (n : Nat) :
    call_gemini true prompt (CallOutcome.returned text (some kvs)) n =
      match jsonPath kvs n with
      | TryResult.ok r => r
      | TryResult.fallthrough => parse_gemini_response text n
      | TryResult.raised => get_mock_response prompt n := rfl

theorem call_gemini_shape (has_key : Bool) (prompt : String) (outcome : CallOutcome)
    (n : Nat) :
    isSeq (call_gemini has_key prompt outcome n).captions = true ∧
    isSeq (call_gemini has_key prompt outcome n).songs = true := by
  cases has_key with
  | false => exact ⟨rfl, rfl⟩
  | true =>
    cases outcome with
    | raised => exact ⟨rfl, rfl⟩
    | returned text parsed =>
      cases parsed with
      | none => exact ⟨rfl, rfl⟩
      | some kvs =>
        rw [call_gemini_parsed]
        cases hjp : jsonPath kvs n with
        | ok r =>
          rcases jsonPath_ok_inv hjp with ⟨_, _, captions, songsSliced, _, _, hcap, _, hr⟩
          constructor
          · show isSeq r.captions = true
            rw [hr]
            exact pySlice_isSeq hcap
          · show isSeq r.songs = true
            rw [hr]
            rfl
        | fallthrough => exact ⟨rfl, rfl⟩
        | raised => exact ⟨rfl, rfl⟩

theorem tookJsonPath_parsed_ok {text : String} {kvs : List (String × J)} {n : Nat}
    {r : GenResult} (hjp : jsonPath kvs n = TryResult.ok r) :
    tookJsonPath true (CallOutcome.returned text (some kvs)) n = true := by
  simp only [tookJsonPath]
  rw [hjp]
  rfl

theorem call_gemini_len (has_key : Bool) (prompt : String) (outcome : CallOutcome)
    (n : Nat) :
    jLen (call_gemini has_key prompt outcome n).captions ≤ n ∧
    jLen (call_gemini has_key prompt outcome n).songs ≤ n ∧
    (tookJsonPath has_key outcome n = false →
      jLen (call_gemini has_key prompt outcome n).captions = n ∧
      jLen (call_gemini has_key prompt outcome n).songs = n) := by
  cases has_key with
  | false =>
    rw [call_gemini_no_key, mock_captions_len, mock_songs_len]
    exact ⟨Nat.le_refl n, Nat.le_refl n, fun _ => ⟨rfl, rfl⟩⟩
  | true =>
    cases outcome with
    | raised =>
      rw [call_gemini_raised, mock_captions_len, mock_songs_len]
      exact ⟨Nat.le_refl n, Nat.le_refl n, fun _ => ⟨rfl, rfl⟩⟩
    | returned text parsed =>
      cases parsed with
      | none =>
        rw [call_gemini_decode_fail, parse_captions_len, parse_songs_len]
        exact ⟨Nat.le_refl n, Nat.le_refl n, fun _ => ⟨rfl, rfl⟩⟩
      | some kvs =>
        rw [call_gemini_parsed]
        cases hjp : jsonPath kvs n with
        | ok r =>
          rcases jsonPath_ok_inv hjp with
            ⟨capsJ, songsJ, captions, songsSliced, _, _, hcap, hsl, hr⟩
          refine ⟨?_, ?_, ?_⟩
          · show jLen r.captions ≤ n
            rw [hr, jLen_pySlice hcap]
            exact Nat.min_le_left _ _
          · show jLen r.songs ≤ n
            rw [hr]
            show (formatSongs (jElems songsSliced)).length ≤ n
            calc (formatSongs (jElems songsSliced)).length
                ≤ (jElems songsSliced).length := formatSongs_length_le _
              _ = jLen songsSliced := jElems_length (pySlice_isSeq hsl)
              _ = min n (jLen songsJ) := jLen_pySlice hsl
              _ ≤ n := Nat.min_le_left _ _
          · intro h
            rw [tookJsonPath_parsed_ok hjp] at h
            exact Bool.noConfusion h
        | fallthrough =>
          rw [parse_captions_len, parse_songs_len]
          exact ⟨Nat.le_refl n, Nat.le_refl n, fun _ => ⟨rfl, rfl⟩⟩
        | raised =>
          rw [mock_captions_len, mock_songs_len]
          exact ⟨Nat.le_refl n, Nat.le_refl n, fun _ => ⟨rfl, rfl⟩⟩

/-! ### Claim theorems -/

/-- C1 (counterexample): the claim that both returned sequences always have
length exactly the clamped count fails on the JSON-success path.  With a
valid upstream JSON object whose `captions` and `songs` arrays are empty and
`num = "3"` (clamped count 3), the route returns two empty lists. -/
theorem C1_counterexample :
    generate true "p" (CallOutcome.returned "no json arrays here"
        (some [("captions", J.arr []), ("songs", J.arr [])])) (some "3")
      = some (J.arr [], J.arr []) ∧
    clampNum (some "3") = 3 ∧
    jLen (J.arr []) = 0 := ⟨rfl, rfl, rfl⟩

/-- C1 (amended): for every request and upstream outcome the route returns
captions and songs sequences of length at most the clamped count, and on
every path except the JSON-success path (mock fallback and line-based
recovery, which truncate or pad) the lengths are exactly the clamped
count; the JSON-success path only truncates, so it may return fewer. -/
theorem C1_response_lengths (has_key : Bool) (prompt : String) (outcome : CallOutcome)
    (numField : Option String) :
    ∃ captions songs,
      generate has_key prompt outcome numField = some (captions, songs) ∧
      jLen captions ≤ (clampNum numField).toNat ∧
      jLen songs ≤ (clampNum numField).toNat ∧
      (tookJsonPath has_key outcome (clampNum numField).toNat = false →
        jLen captions = (clampNum numField).toNat ∧
        jLen songs = (clampNum numField).toNat) := by
  obtain ⟨hc, hs⟩ := call_gemini_shape has_key prompt outcome ((clampNum numField).toNat)
  obtain ⟨c, hcs⟩ := pySlice_some_of_isSeq hc ((clampNum numField).toNat)
  obtain ⟨s, hss⟩ := pySlice_some_of_isSeq hs ((clampNum numField).toNat)
  refine ⟨c, s, ?_, ?_, ?_, ?_⟩
  · unfold generate
    rw [hcs, hss]
  · rw [jLen_pySlice hcs]
    exact Nat.min_le_left _ _
  · rw [jLen_pySlice hss]
    exact Nat.min_le_left _ _
  · intro h
    obtain ⟨h1, h2⟩ :=
      (call_gemini_len has_key prompt outcome ((clampNum numField).toNat)).2.2 h
    constructor
    · rw [jLen_pySlice hcs, h1, Nat.min_self]
    · rw [jLen_pySlice hss, h2, Nat.min_self]

/-- C1 (witness): the amended theorem instantiated on a concrete mock-path
request (no API key, `num = "3"`). -/
theorem C1_response_lengths_witness :
    ∃ captions songs,
      generate false "a sunny day" CallOutcome.raised (some "3") = some (captions, songs) ∧
      jLen captions ≤ (clampNum (some "3")).toNat ∧
      jLen songs ≤ (clampNum (some "3")).toNat ∧
      (tookJsonPath false CallOutcome.raised (clampNum (some "3")).toNat = false →
        jLen captions = (clampNum (some "3")).toNat ∧
        jLen songs = (clampNum (some "3")).toNat) :=
  C1_response_lengths false "a sunny day" CallOutcome.raised (some "3")

/-- C4: the adapter never raises to its caller — with no credential it
delegates directly to the mock generator, an exception during the external
call falls back to the mock generator, and an exception inside the response
normalisation (a non-sliceable `captions`/`songs` value) is also absorbed by
the mock generator. -/
theorem C4_never_raises (prompt text : String) (outcome : CallOutcome) (n : Nat)
    (kvs : List (String × J)) (hr : jsonPath kvs n = TryResult.raised) :
    call_gemini false prompt outcome n = get_mock_response prompt n ∧
    call_gemini true prompt CallOutcome.raised n = get_mock_response prompt n ∧
    call_gemini true prompt (CallOutcome.returned text (some kvs)) n
      = get_mock_response prompt n := by
  refine ⟨rfl, rfl, ?_⟩
  rw [call_gemini_parsed, hr]

/-- C4 (witness): concrete instance — `{"captions": 1, "songs": 2}` makes the
slice raise a `TypeError`, and the adapter answers with the mock result. -/
theorem C4_never_raises_witness :
    call_gemini false "p" CallOutcome.raised 3 = get_mock_response "p" 3 ∧
    call_gemini true "p" CallOutcome.raised 3 = get_mock_response "p" 3 ∧
    call_gemini true "p" (CallOutcome.returned "text"
        (some [("captions", J.num 1), ("songs", J.num 2)])) 3
      = get_mock_response "p" 3 :=
  C4_never_raises "p" "text" CallOutcome.raised 3
    [("captions", J.num 1), ("songs", J.num 2)] rfl

/-- C5: the mock generator is deterministic — two results computed from the
same prompt and count agree on captions and songs. -/
theorem C5_mock_deterministic (prompt : String) (n : Nat) (r1 r2 : GenResult)
    (h1 : r1 = get_mock_response prompt n) (h2 : r2 = get_mock_response prompt n) :
    r1.captions = r2.captions ∧ r1.songs = r2.songs := by
  subst h1
  subst h2
  exact ⟨rfl, rfl⟩

/-- C5 (witness): concrete instance at prompt "golden hour", count 2. -/
theorem C5_mock_deterministic_witness :
    (get_mock_response "golden hour" 2).captions
        = (get_mock_response "golden hour" 2).captions ∧
    (get_mock_response "golden hour" 2).songs
        = (get_mock_response "golden hour" 2).songs :=
  C5_mock_deterministic "golden hour" 2 _ _ rfl rfl

/-- C7: count clamping at the endpoint — `num=0` clamps to 1, `num=10` clamps
to 6, a missing field defaults to 3, a string that fails integer parsing
yields 3, and every field value yields a count in [1, 6]. -/
theorem C7_count_clamping (s : String) (hs : pyParseInt s = none) :
    clampNum (some "0") = 1 ∧ clampNum (some "10") = 6 ∧ clampNum none = 3 ∧
    clampNum (some s) = 3 ∧
    ∀ field : Option String, 1 ≤ clampNum field ∧ clampNum field ≤ 6 := by
  refine ⟨rfl, rfl, rfl, ?_, ?_⟩
  · simp only [clampNum, Option.getD_some, hs]
  · intro field
    unfold clampNum
    cases pyParseInt (field.getD "3") with
    | none => exact ⟨by norm_num, by norm_num⟩
    | some m => exact ⟨le_max_left _ _, max_le (by norm_num) (min_le_left _ _)⟩

/-- C7 (witness): the clamping facts instantiated with the unparsable string
"abc". -/
theorem C7_count_clamping_witness :
    clampNum (some "0") = 1 ∧ clampNum (some "10") = 6 ∧ clampNum none = 3 ∧
    clampNum (some "abc") = 3 ∧
    ∀ field : Option String, 1 ≤ clampNum field ∧ clampNum field ≤ 6 :=
  C7_count_clamping "abc" (by decide)

/-- C2 (counterexample): the claim that a recovery line "Title - Artist" is
split into title and artist fails — the cleanup deletes every hyphen first,
so "Hello - Adele" is kept whole (with doubled space) as the title with
artist "Unknown Artist". -/
theorem C2_counterexample :
    (jElems (parse_gemini_response c2Text 1).songs).map songTitleArtist
      = [some ("Hello  Adele", "Unknown Artist")] ∧
    (jElems (parse_gemini_response c2Text 1).songs).map songTitleArtist
      ≠ [some ("Hello", "Adele")] := by
  refine ⟨rfl, ?_⟩
  decide

/-- C2 (amended): in songs mode, after the cleanup no hyphen (hence no
`" - "` separator) can remain in the line, so that branch is unreachable; a
cleaned line containing `" by "` is split on it into stripped title and
artist, and otherwise a cleaned line longer than 3 characters becomes the
whole title with artist "Unknown Artist". -/
theorem C2_songs_line_rules (l : String) :
    '-' ∉ (cleanLine l).data ∧
    pyContains " - " (cleanLine l) = false ∧
    (pyContains " by " (cleanLine l) = true →
      songFromCleaned (cleanLine l) =
        some (mkSong (pyStrip ((pySplit " by " (cleanLine l)).getD 0 ""))
                     (pyStrip ((pySplit " by " (cleanLine l)).getD 1 "")))) ∧
    (pyContains " by " (cleanLine l) = false → (cleanLine l).length > 3 →
      songFromCleaned (cleanLine l) = some (mkSong (cleanLine l) "Unknown Artist")) := by
  refine ⟨cleanLine_no_dash l, cleanLine_no_dash_sep l, ?_, ?_⟩
  · intro h
    unfold songFromCleaned
    rw [if_pos h]
  · intro h1 h2
    have hne : cleanLine l ≠ "" := by
      intro he
      rw [he] at h2
      exact absurd h2 (by decide)
    unfold songFromCleaned
    rw [if_neg (by simp [h1]), if_neg (by simp [cleanLine_no_dash_sep l]),
      if_pos (by simp [hne, h2])]

/-- C2 (witness): the amended per-line rules instantiated on the line
"Hello - Adele". -/
theorem C2_songs_line_rules_witness :
    pyContains " by " (cleanLine "Hello - Adele") = false ∧
    (cleanLine "Hello - Adele").length > 3 ∧
    songFromCleaned (cleanLine "Hello - Adele")
      = some (mkSong (cleanLine "Hello - Adele") "Unknown Artist") :=
  ⟨by decide, by decide,
    (C2_songs_line_rules "Hello - Adele").2.2.2 (by decide) (by decide)⟩

/-- C3: the mock generator computes its seed as the sum of the prompt's
character codes modulo 7 (the caption-pool length, 0 for the empty prompt)
and indexes pools by (seed + i) mod pool length; concretely, prompt "" with
count 3 yields the first three base captions and hollywood songs. -/
theorem C3_mock_seed_indexing (prompt : String) (count i : Nat) (h : i < count) :
    (jElems (get_mock_response prompt count).captions)[i]? =
      some (J.str (base_captions.getD
        (((if prompt ≠ "" then (prompt.data.map Char.toNat).sum % 7 else 0) + i) % 7) "")) ∧
    (jElems (get_mock_response prompt count).songs)[i]? =
      some ((select_base_songs prompt).getD
        (((if prompt ≠ "" then (prompt.data.map Char.toNat).sum % 7 else 0) + i)
          % (select_base_songs prompt).length) J.null) ∧
    get_mock_response "" 3 =
      { captions := J.arr [J.str "Stolen moments under golden skies",
                           J.str "When the world felt like a soft melody",
                           J.str "Sunlit streets and quiet thoughts"],
        songs := J.arr [mkSong "Golden Hour" "Joji",
                        mkSong "Sunflower" "Post Malone",
                        mkSong "Levitating" "Dua Lipa"] } := by
  have hseed : mock_seed prompt =
      (if prompt ≠ "" then (prompt.data.map Char.toNat).sum % 7 else 0) := rfl
  refine ⟨?_, ?_, rfl⟩
  · rw [mock_captions_elems]
    simp only [List.getElem?_map, List.getElem?_range h, Option.map_some']
    rw [hseed]
    rfl
  · rw [mock_songs_elems]
    simp only [List.getElem?_map, List.getElem?_range h, Option.map_some']
    rw [hseed]

/-- C3 (witness): the indexing facts instantiated at prompt "", count 3,
position 0. -/
theorem C3_mock_seed_indexing_witness :
    (jElems (get_mock_response "" 3).captions)[0]? =
      some (J.str (base_captions.getD
        (((if ("" : String) ≠ "" then (("" : String).data.map Char.toNat).sum % 7 else 0) + 0)
          % 7) "")) :=
  (C3_mock_seed_indexing "" 3 0 (by decide)).1

/-- C6: mock region selection follows the priority order bollywood,
tollywood, kpop/k-pop, hollywood over the lowercased prompt, defaulting to
hollywood, and every song the mock generator returns is a member of the
selected pool. -/
theorem C6_region_selection (prompt : String) (n : Nat) :
    (pyContains "bollywood" (pyLower prompt) = true →
      select_base_songs prompt = bollywood_songs) ∧
    (pyContains "bollywood" (pyLower prompt) = false →
      pyContains "tollywood" (pyLower prompt) = true →
      select_base_songs prompt = tollywood_songs) ∧
    (pyContains "bollywood" (pyLower prompt) = false →
      pyContains "tollywood" (pyLower prompt) = false →
      (pyContains "kpop" (pyLower prompt) = true ∨
        pyContains "k-pop" (pyLower prompt) = true) →
      select_base_songs prompt = kpop_songs) ∧
    (pyContains "bollywood" (pyLower prompt) = false →
      pyContains "tollywood" (pyLower prompt) = false →
      pyContains "kpop" (pyLower prompt) = false →
      pyContains "k-pop" (pyLower prompt) = false →
      select_base_songs prompt = hollywood_songs) ∧
    ∀ s ∈ jElems (get_mock_response prompt n).songs, s ∈ select_base_songs prompt := by
  refine ⟨?_, ?_, ?_, ?_, ?_⟩
  · intro h
    unfold select_base_songs
    rw [if_pos h]
  · intro h1 h2
    unfold select_base_songs
    rw [if_neg (by simp [h1]), if_pos h2]
  · intro h1 h2 h3
    unfold select_base_songs
    rw [if_neg (by simp [h1]), if_neg (by simp [h2]),
      if_pos (by rcases h3 with h | h <;> simp [h])]
  · intro h1 h2 h3 h4
    unfold select_base_songs
    rw [if_neg (by simp [h1]), if_neg (by simp [h2]), if_neg (by simp [h3, h4])]
    split <;> rfl
  · intro s hs
    exact mem_mock_songs hs

/-- C6 (witness): a prompt containing "Bollywood" (mixed case) selects the
bollywood pool. -/
theorem C6_region_selection_witness :
    select_base_songs "Bollywood beats please" = bollywood_songs :=
  (C6_region_selection "Bollywood beats please" 1).1 (by decide)

/-- C8 (counterexample): the claim that a string song entry is split into the
parts on either side of the first `" - "` separator fails when the string
contains two separators — the code takes `parts[1]`, the segment between the
first and second separator, as the artist. -/
theorem C8_counterexample :
    (formatSongs [J.str "Believer - Imagine - Dragons"]).map songTitleArtist
      = [some ("Believer", "Imagine")] ∧
    (formatSongs [J.str "Believer - Imagine - Dragons"]).map songTitleArtist
      ≠ [some ("Believer", "Imagine - Dragons")] := by
  refine ⟨rfl, ?_⟩
  decide

/-- C8 (amended): when the extracted JSON object has both a `captions` and a
`songs` array, the JSON path truncates both to `count` and normalises each
song entry as `songEntryAmended` describes: dicts with both keys pass
through, a plain string is split on `" - "` with the title the first field
and the artist the second field of the split (stripped), the artist
defaulting to "Unknown Artist" when no separator occurs. -/
theorem C8_json_song_normalisation (kvs : List (String × J)) (caps songs : List J)
    (n : Nat) (hc : lookupJ kvs "captions" = some (J.arr caps))
    (hs : lookupJ kvs "songs" = some (J.arr songs)) :
    jsonPath kvs n = TryResult.ok
      { captions := J.arr (caps.take n),
        songs := J.arr ((songs.take n).filterMap songEntryAmended) } := by
  unfold jsonPath
  rw [hc, hs]
  show TryResult.ok ⟨J.arr (caps.take n), J.arr (formatSongs (songs.take n))⟩ = _
  rw [formatSongs_eq_filterMap]

/-- C8 (witness): concrete instance — "Hello - Adele" is split into title
and artist, "Starboy" gets artist "Unknown Artist". -/
theorem C8_json_song_normalisation_witness :
    jsonPath [("captions", J.arr [J.str "c1"]),
              ("songs", J.arr [J.str "Hello - Adele", J.str "Starboy"])] 3
      = TryResult.ok
        { captions := J.arr [J.str "c1"],
          songs := J.arr [mkSong "Hello" "Adele",
                          mkSong "Starboy" "Unknown Artist"] } :=
  C8_json_song_normalisation
    [("captions", J.arr [J.str "c1"]),
     ("songs", J.arr [J.str "Hello - Adele", J.str "Starboy"])]
    [J.str "c1"] [J.str "Hello - Adele", J.str "Starboy"] 3 rfl rfl

/-- C9: the caption pool and all four region song pools have exactly 7
entries, the selected pool always has the caption-pool length, and for every
prompt and position the caption and the song are selected with the identical
index (seed + i) mod 7 — the desynchronisation the spec flags for unequal
pool lengths cannot occur. -/
theorem C9_pool_synchronisation (prompt : String) (count i : Nat) (h : i < count) :
    base_captions.length = 7 ∧ bollywood_songs.length = 7 ∧
    hollywood_songs.length = 7 ∧ tollywood_songs.length = 7 ∧
    kpop_songs.length = 7 ∧
    (select_base_songs prompt).length = base_captions.length ∧
    (jElems (get_mock_response prompt count).captions)[i]? =
      some (J.str (base_captions.getD ((mock_seed prompt + i) % 7) "")) ∧
    (jElems (get_mock_response prompt count).songs)[i]? =
      some ((select_base_songs prompt).getD ((mock_seed prompt + i) % 7) J.null) := by
  refine ⟨rfl, rfl, rfl, rfl, rfl, length_select_base_songs prompt, ?_, ?_⟩
  · rw [mock_captions_elems]
    simp only [List.getElem?_map, List.getElem?_range h, Option.map_some']
    rfl
  · rw [mock_songs_elems]
    simp only [List.getElem?_map, List.getElem?_range h, Option.map_some']
    rw [length_select_base_songs prompt]

/-- C9 (witness): the synchronisation facts instantiated at prompt
"picnic", count 2, position 1. -/
theorem C9_pool_synchronisation_witness :
    (jElems (get_mock_response "picnic" 2).captions)[1]? =
      some (J.str (base_captions.getD ((mock_seed "picnic" + 1) % 7) "")) ∧
    (jElems (get_mock_response "picnic" 2).songs)[1]? =
      some ((select_base_songs "picnic").getD ((mock_seed "picnic" + 1) % 7) J.null) :=
  ⟨(C9_pool_synchronisation "picnic" 2 1 (by decide)).2.2.2.2.2.2.1,
   (C9_pool_synchronisation "picnic" 2 1 (by decide)).2.2.2.2.2.2.2⟩

/-- C10: on every return path of the adapter, every element of the returned
songs list is a record containing both a `title` and an `artist` field. -/
theorem C10_songs_shape (has_key : Bool) (prompt : String) (outcome : CallOutcome)
    (n : Nat) (s : J)
    (hmem : s ∈ jElems (call_gemini has_key prompt outcome n).songs) :
    hasTitleArtist s = true := by
  cases has_key with
  | false =>
    rw [call_gemini_no_key] at hmem
    exact mock_songs_hasTitleArtist hmem
  | true =>
    cases outcome with
    | raised =>
      rw [call_gemini_raised] at hmem
      exact mock_songs_hasTitleArtist hmem
    | returned text parsed =>
      cases parsed with
      | none =>
        rw [call_gemini_decode_fail] at hmem
        exact parse_songs_hasTitleArtist hmem
      | some kvs =>
        rw [call_gemini_parsed] at hmem
        cases hjp : jsonPath kvs n with
        | ok r =>
          rw [hjp] at hmem
          rcases jsonPath_ok_inv hjp with ⟨_, _, captions, songsSliced, _, _, _, _, hr⟩
          rw [hr] at hmem
          exact mem_formatSongs_hasTitleArtist hmem
        | fallthrough =>
          rw [hjp] at hmem
          exact parse_songs_hasTitleArtist hmem
        | raised =>
          rw [hjp] at hmem
          exact mock_songs_hasTitleArtist hmem

/-- C10 (witness): concrete instance on the mock path with count 1. -/
theorem C10_songs_shape_witness :
    hasTitleArtist (mkSong "Golden Hour" "Joji") = true :=
  C10_songs_shape false "" CallOutcome.raised 1 (mkSong "Golden Hour" "Joji")
    (by exact List.mem_singleton.mpr rfl)

end LyricLens
